import Mathlib

/-!
Verification of the subscan core (Go) against its natural-language spec.

Shallow embedding notes:
* Network and DNS effects are modelled by explicit per-host environment
  records (`SubdomainEnv`, `ProbeEnv`): each field holds the value the
  corresponding Go library call would return (`none` = the call failed).
* Go `float64` scores are modelled in exact tenths (`Int`): every score
  constant in the source (1.0, 0.5, 0.3, 0.2, 0.7, 1.0) is a multiple of
  0.1, so score 10 here denotes 1.0 in the source.  All concrete score
  comparisons used below involve sums of halves (exact in float64) or
  strict gaps of several tenths, so no float-rounding artifact is hidden
  by this representation.
* Go `regexp.MatchString` (library code) is an oracle parameter
  `regexMatch` of the scorer environment; counterexample instances
  instantiate it consistently with the real regexes on the tested strings.
* Go maps (`cloudCnamePatterns`, `takeoversignatures`) iterate in
  unspecified order; they are embedded as lists in source-textual order.
  Every property proved below is insensitive to that order.
-/

namespace Subscan

/-! ## String helpers (embedding of `strings.Contains`, `strings.TrimSuffix`) -/

/-- `leadsWith n h` is true when the list `n` is an initial run of `h`. -/
def leadsWith : List Char → List Char → Bool
  | [], _ => true
  | _ :: _, [] => false
  | a :: as, b :: bs => (a == b) && leadsWith as bs

/-- `hasSub n h` is true when `n` occurs contiguously inside `h`. -/
def hasSub (needle : List Char) : List Char → Bool
  | [] => needle.isEmpty
  | b :: rest => leadsWith needle (b :: rest) || hasSub needle rest

/-- Embedding of Go `strings.Contains s sub`. -/
def strContains (s sub : String) : Bool :=
  hasSub sub.data s.data

/-- Embedding of Go `strings.TrimSuffix(s, ".")`. -/
def trimSuffixDot (s : String) : String :=
  if s.data.getLast? = some '.' then String.mk s.data.dropLast else s

/-- First `n` characters of `s`: models the `io.LimitReader` capped read. -/
def takeChars (n : Nat) (s : String) : String :=
  String.mk (s.data.take n)

/-! ## Scorer module (Go package `scorer`)

Data model from `SubdomainInfo` / `AnalysisOptions` in the source. -/

/-- TLS certificate summary delivered by a successful HTTPS handshake
(`resp.TLS.PeerCertificates[0]` in the source).  Validity instants are
modelled as integers compared against the environment's `now`. -/
structure TLSCert where
  issuerCN : String
  dnsNames : List String
  notBefore : Int
  notAfter : Int
deriving DecidableEq, Repr

/-- What one HTTP(S) attempt of the scorer returns when it does not fail. -/
structure ScoreHTTPResponse where
  statusCode : Nat
  contentLength : Int
  headers : List (String × String)
  tlsCert : Option TLSCert
deriving DecidableEq, Repr

/-- Per-subdomain network environment of the scorer: values the Go library
calls would produce.  `none` models the call returning an error.
`regexMatch pat s` is the `regexp.MatchString pat s` oracle. -/
structure SubdomainEnv where
  now : Int
  httpsResp : Option ScoreHTTPResponse
  httpResp : Option ScoreHTTPResponse
  cnameChain : Option (List String)
  regexMatch : String → String → Bool

/-- Embedding of the Go struct `SubdomainInfo`.  `Score` is in tenths. -/
structure SubdomainInfo where
  Subdomain : String
  HTTPStatus : Nat
  ContentLength : Int
  Headers : List (String × String)
  IsTLS : Bool
  TLSIssuer : String
  SANs : List String
  CNAMEs : List String
  CloudProvider : String
  Score : Int
  Tags : List String
deriving DecidableEq, Repr

/-- Embedding of the Go struct `AnalysisOptions`.  `Timeout` in seconds. -/
structure AnalysisOptions where
  Concurrency : Nat
  Timeout : Nat
  VerboseOutput : Bool
  ExcludeHeaders : Bool
deriving DecidableEq, Repr

/-- Embedding of `DefaultOptions`. -/
def DefaultOptions : AnalysisOptions :=
  { Concurrency := 10, Timeout := 5, VerboseOutput := false, ExcludeHeaders := true }

/-- The `cloudCnamePatterns` table (regex pattern, provider), in source
textual order (the Go map iterates in unspecified order; all facts proved
about this table are order-insensitive). -/
def cloudCnamePatterns : List (String × String) :=
  [ ("s3[\\.-]([a-z0-9-]+\\.)?amazonaws\\.com", "AWS-S3")
  , ("\\.cloudfront\\.net", "AWS-CloudFront")
  , ("\\.azure-api\\.net", "Azure-API")
  , ("\\.azurewebsites\\.net", "Azure-Web")
  , ("\\.blob\\.core\\.windows\\.net", "Azure-Blob")
  , ("\\.azureedge\\.net", "Azure-CDN")
  , ("\\.googleapis\\.com", "Google-API")
  , ("\\.ghs\\.googlehosted\\.com", "Google-User")
  , ("\\.firebaseapp\\.com", "Firebase")
  , ("\\.github\\.io", "GitHub-Pages")
  , ("\\.cloudapp\\.net", "Azure-VM")
  , ("\\.trafficmanager\\.net", "Azure-Traffic")
  , ("\\.herokuapp\\.com", "Heroku")
  , ("\\.netlify\\.app", "Netlify")
  , ("\\.pantheonsite\\.io", "Pantheon")
  , ("\\.fastly\\.net", "Fastly")
  , ("\\.vercel\\.app", "Vercel")
  , ("\\.shopifyhostedapps\\.com", "Shopify")
  , ("pagecdn\\.io", "PageCDN")
  , ("\\.workers\\.dev", "Cloudflare-Workers")
  , ("\\.appspot\\.com", "Google-AppEngine") ]

/-- The HTTP-probing block of `analyzeSubdomain` (lines "Try HTTPS first"
through the `NO-HTTP` fallback), applied to the zero-initialised record. -/
def httpStep (env : SubdomainEnv) (subdomain : String) (options : AnalysisOptions) :
    SubdomainInfo :=
  let i0 : SubdomainInfo :=
    { Subdomain := subdomain, HTTPStatus := 0, ContentLength := 0, Headers := [],
      IsTLS := false, TLSIssuer := "", SANs := [], CNAMEs := [],
      CloudProvider := "", Score := 10, Tags := [] }
  match env.httpsResp with
  | some r =>
    let a := { i0 with
      IsTLS := true, HTTPStatus := r.statusCode, ContentLength := r.contentLength,
      Headers := if options.ExcludeHeaders then i0.Headers else r.headers }
    match r.tlsCert with
    | some cert =>
      let b := { a with
        TLSIssuer := cert.issuerCN,
        SANs := cert.dnsNames.filter (fun san => san ≠ subdomain) }
      if env.now < cert.notAfter && cert.notBefore < env.now then
        { b with Score := b.Score + 5 }
      else
        { b with Tags := b.Tags ++ ["CERT-INVALID"], Score := b.Score - 3 }
    | none => a
  | none =>
    match env.httpResp with
    | some r =>
      { i0 with
        HTTPStatus := r.statusCode, ContentLength := r.contentLength,
        Headers := if options.ExcludeHeaders then i0.Headers else r.headers }
    | none =>
      { i0 with HTTPStatus := 0, Tags := i0.Tags ++ ["NO-HTTP"] }

/-- One iteration of the cloud-provider pattern loop: in the source, the
inner loop over `cnames` breaks at the first matching CNAME, so per
pattern the effect fires iff some CNAME matches. -/
def cloudStep (env : SubdomainEnv) (cnames : List String)
    (acc : SubdomainInfo) (pp : String × String) : SubdomainInfo :=
  if cnames.any (fun c => env.regexMatch pp.1 c) then
    { acc with
      CloudProvider := pp.2, Tags := acc.Tags ++ [pp.2],
      Score := acc.Score + 10 }
  else acc

/-- The "DNS CNAME lookup" block of `analyzeSubdomain`. -/
def cnameStep (env : SubdomainEnv) (i : SubdomainInfo) : SubdomainInfo :=
  match env.cnameChain with
  | some cnames =>
    cloudCnamePatterns.foldl (cloudStep env cnames) { i with CNAMEs := cnames }
  | none => i

/-- The "Add tags based on HTTP status" switch of `analyzeSubdomain`. -/
def statusStep (i : SubdomainInfo) : SubdomainInfo :=
  if 200 ≤ i.HTTPStatus && i.HTTPStatus < 300 then
    { i with Tags := i.Tags ++ [toString i.HTTPStatus], Score := i.Score + 10 }
  else if 300 ≤ i.HTTPStatus && i.HTTPStatus < 400 then
    { i with Tags := i.Tags ++ [toString i.HTTPStatus, "REDIRECT"], Score := i.Score + 5 }
  else if i.HTTPStatus = 403 then
    { i with Tags := i.Tags ++ ["403"], Score := i.Score + 7 }
  else if 400 ≤ i.HTTPStatus && i.HTTPStatus < 500 then
    { i with Tags := i.Tags ++ [toString i.HTTPStatus], Score := i.Score + 2 }
  else if 500 ≤ i.HTTPStatus then
    { i with Tags := i.Tags ++ [toString i.HTTPStatus], Score := i.Score + 3 }
  else i

/-- The "Add tag for content size" block of `analyzeSubdomain`. -/
def sizeStep (i : SubdomainInfo) : SubdomainInfo :=
  if 0 < i.ContentLength then
    let sizeKB := i.ContentLength / 1024
    if 100 < sizeKB then
      { i with Tags := i.Tags ++ ["LARGE"], Score := i.Score + 2 }
    else
      { i with Tags := i.Tags ++ [toString sizeKB ++ "KB"] }
  else i

/-- Embedding of `analyzeSubdomain`: the source mutates one record through
the four blocks in this order. -/
def analyzeSubdomain (env : SubdomainEnv) (subdomain : String)
    (options : AnalysisOptions) : SubdomainInfo :=
  sizeStep (statusStep (cnameStep env (httpStep env subdomain options)))

/-- Embedding of the recursive `lookupCNAME`, with an explicit fuel
parameter because the source recursion has no termination guard.
`dns h` models `net.LookupCNAME(h)` (`none` = lookup error).
Outer `none` = the recursion did not complete within `fuel` steps;
`some none` = the Go function returned an error;
`some (some chain)` = it returned `chain`. -/
def lookupCNAME (dns : String → Option String) :
    Nat → String → Option (Option (List String))
  | 0, _ => none
  | fuel + 1, host =>
    match dns host with
    | none => some none
    | some records =>
      if records = "" then some (some [])
      else
        let c := trimSuffixDot records
        if c = host then some (some [c])
        else
          match lookupCNAME dns fuel c with
          | none => none
          | some nested => some (some (c :: nested.getD []))

/-- One pass of the inner `j` loop of `sortByScore` for a fixed outer
index `i`: `c` is the value currently at position `i` (the source reads
`results[i]` afresh after each swap), the list argument holds the values
at positions `i+1 …` in order (each such position is read before it is
ever written, and written at most once, by its own step).  Returns the
final value of position `i` and the values left at positions `i+1 …`. -/
def selectSwap (c : SubdomainInfo) : List SubdomainInfo →
    SubdomainInfo × List SubdomainInfo
  | [] => (c, [])
  | e :: rest =>
    if c.Score < e.Score then
      let p := selectSwap e rest
      (p.1, c :: p.2)
    else
      let p := selectSwap c rest
      (p.1, e :: p.2)

/-- The outer `i` loop of `sortByScore`; the fuel equals the number of
outer iterations still to run (the source runs one per index). -/
def sortByScoreGo : Nat → List SubdomainInfo → List SubdomainInfo
  | 0, l => l
  | _ + 1, [] => []
  | n + 1, x :: xs =>
    let p := selectSwap x xs
    p.1 :: sortByScoreGo n p.2

/-- Embedding of `sortByScore` (in-place exchange sort in the source). -/
def sortByScore (l : List SubdomainInfo) : List SubdomainInfo :=
  sortByScoreGo l.length l

/-- Embedding of `AnalyzeSubdomains`: the worker pool analyses every
subdomain exactly once and appends each result to the shared slice under
a mutex; append order is scheduling-dependent, modelled here as input
order (every property proved below is either order-insensitive or is
about the tie behavior of the final sort, for which input order is the
discovery order the claim refers to). -/
def AnalyzeSubdomains (envs : String → SubdomainEnv) (subdomains : List String)
    (options : AnalysisOptions) : List SubdomainInfo :=
  sortByScore (subdomains.map (fun s => analyzeSubdomain (envs s) s options))

/-! ## Probe module (Go package `probe`) -/

/-- Embedding of the Go struct `ProbeResult`. -/
structure ProbeResult where
  Domain : String
  CNAME : String
  HTTPStatus : Nat
  ContentLength : Int
  IsTakeover : Bool
  S3Public : Bool
  S3Private : Bool
  ExposedFiles : List String
  RedirectURL : String
  OpenRedirect : Bool
  Vulnerabilities : List String
  Tags : List String
deriving DecidableEq, Repr

/-- Embedding of the Go struct `ProbeOptions`.  `Timeout` in seconds. -/
structure ProbeOptions where
  Concurrency : Nat
  Timeout : Nat
  UserAgent : String
  Verbose : Bool
deriving DecidableEq, Repr

/-- Embedding of `DefaultProbeOptions`. -/
def DefaultProbeOptions : ProbeOptions :=
  { Concurrency := 10, Timeout := 10, UserAgent := "Subscan/1.0", Verbose := false }

/-- One entry of the `takeoversignatures` table (`bodyMatches` embeds the
Go field `matches`, a Lean keyword). -/
structure TakeoverSig where
  provider : String
  cname : List String
  bodyMatches : List String
deriving DecidableEq, Repr

/-- The `takeoversignatures` table in source textual order (Go map;
iteration order unspecified — all facts proved are order-insensitive). -/
def takeoversignatures : List TakeoverSig :=
  [ ⟨"AWS/S3", ["s3.amazonaws.com", "amazonaws.com.s3", ".s3.amazonaws.com"],
      ["NoSuchBucket", "The specified bucket does not exist"]⟩
  , ⟨"Heroku", ["herokuapp.com", "herokuapp"],
      ["No such app", "Heroku | No such app", "herokucdn.com/error-pages/no-such-app.html"]⟩
  , ⟨"GitHub", ["github.io"],
      ["There isn't a GitHub Pages site here",
       "For root URLs (like http://example.com/) you must provide an index.html file"]⟩
  , ⟨"Azure", ["azurewebsites.net", "cloudapp.net", "azure-api.net"],
      ["404 Web Site not found"]⟩
  , ⟨"Fastly", ["fastly.net"], ["Fastly error: unknown domain", "fastly error"]⟩
  , ⟨"Pantheon", ["pantheonsite.io"], ["The gods are wise", "404 error unknown site!"]⟩
  , ⟨"Shopify", ["myshopify.com"], ["Sorry, this shop is currently unavailable"]⟩
  , ⟨"Zendesk", ["zendesk.com"], ["Help Center Closed"]⟩
  , ⟨"Wordpress", ["wordpress.com"], ["Do you want to register"]⟩
  , ⟨"Acquia", ["acquia-sites.com"], ["The site you are looking for could not be found."]⟩
  , ⟨"Agile CRM", ["cname.agilecrm.com"], ["Sorry, this page is no longer available."]⟩
  , ⟨"Bitbucket", ["bitbucket.io"], ["Repository not found"]⟩
  , ⟨"Campaign Monitor", ["createsend.com"], ["Double check the URL"]⟩
  , ⟨"DigitalOcean", ["digitalocean.com"],
      ["404 Not Found", "Domain uses DO name servers with no records in DO."]⟩
  , ⟨"Ghost", ["ghost.io"], ["Domain is not configured", "404 Not Found"]⟩
  , ⟨"Strikingly", ["s.strikinglydns.com"],
      ["But if you're looking to build your own website", "406 not acceptable"]⟩
  , ⟨"Surge.sh", ["surge.sh"], ["project not found"]⟩
  , ⟨"Tumblr", ["domains.tumblr.com"],
      ["Whatever you were looking for doesn't currently exist at this address."]⟩
  , ⟨"Webflow", ["proxy.webflow.com", "proxy-ssl.webflow.com"],
      ["The page you are looking for doesn't exist or has been moved."]⟩
  , ⟨"Vercel", ["vercel-dns.com", "vercel.app"],
      ["The deployment could not be found on Vercel."]⟩
  , ⟨"Netlify", ["netlify.app", "netlify.com"], ["Not found", "404"]⟩ ]

/-- One entry of the `sensitiveFilePaths` table. -/
structure FileSig where
  path : String
  description : String
  contentSigs : List String
deriving DecidableEq, Repr

/-- The `sensitiveFilePaths` table (slice; order is source order). -/
def sensitiveFilePaths : List FileSig :=
  [ ⟨".env", "Environment Variables File", ["DB_PASSWORD", "API_KEY", "SECRET"]⟩
  , ⟨"/.env", "Environment Variables File", ["DB_PASSWORD", "API_KEY", "SECRET"]⟩
  , ⟨"/.git/config", "Git Config File", ["[core]", "repositoryformatversion", "filemode"]⟩
  , ⟨"/config.json", "Configuration File", ["password", "secret", "key", "token"]⟩
  , ⟨"/wp-config.php", "WordPress Config", ["DB_PASSWORD", "AUTH_KEY"]⟩
  , ⟨"/robots.txt", "Robots.txt File", ["Disallow:", "Allow:"]⟩
  , ⟨"/sitemap.xml", "Sitemap", ["<urlset", "<url>", "<loc>"]⟩
  , ⟨"/.well-known/security.txt", "Security Policy", ["Contact:", "Expires:"]⟩
  , ⟨"/server-status", "Apache Status Page", ["Apache Server Status", "Server Version:"]⟩
  , ⟨"/phpinfo.php", "PHP Info", ["PHP Version", "PHP Credits"]⟩ ]

/-- One entry of the `openRedirectPatterns` table. -/
structure RedirPattern where
  pathPattern : String
  param : String
deriving DecidableEq, Repr

/-- The `openRedirectPatterns` table (slice; order is source order). -/
def openRedirectPatterns : List RedirPattern :=
  [ ⟨"/redirect", "url"⟩, ⟨"/login", "next"⟩, ⟨"/logout", "next"⟩
  , ⟨"/signin", "redirect"⟩, ⟨"/auth/callback", "url"⟩, ⟨"/go", "url"⟩
  , ⟨"/redirect", "to"⟩, ⟨"/", "url"⟩, ⟨"/", "redirect_to"⟩, ⟨"/", "redirect_uri"⟩
  , ⟨"/", "return_to"⟩, ⟨"/", "next"⟩, ⟨"/", "redir"⟩, ⟨"/", "r"⟩ ]

/-- One HTTP attempt of the probe: status, header content length, and the
raw body bytes the server delivers (the code reads at most 10 KiB of it). -/
structure ProbeHTTP where
  statusCode : Nat
  contentLength : Int
  body : String
deriving DecidableEq, Repr

/-- Per-domain network environment of the probe.  `none` models the Go
call failing.  `s3Keys` models `xml.Unmarshal` of the body into the
bucket-listing structure: `none` = parse error, `some keys` = parsed
`Contents` keys.  `fileResp url` / `redirResp url` model the extra GET
the sensitive-file / open-redirect stages issue against `url`: status
with body, resp. status with `Location` header. -/
structure ProbeEnv where
  httpsResp : Option ProbeHTTP
  httpResp : Option ProbeHTTP
  cnameChain : Option (List String)
  s3Keys : Option (List String)
  fileResp : String → Option (Nat × String)
  redirResp : String → Option (Nat × String)

/-- Whether `probeDomain`'s step 1 left a non-nil `resp` (HTTPS or the
HTTP fallback succeeded). -/
def respOkOf (env : ProbeEnv) : Bool :=
  env.httpsResp.isSome || env.httpResp.isSome

/-- Status code captured by `probeDomain`'s step 1 (0 when both fail). -/
def statusOf (env : ProbeEnv) : Nat :=
  match env.httpsResp with
  | some r => r.statusCode
  | none =>
    match env.httpResp with
    | some r => r.statusCode
    | none => 0

/-- Content length captured by `probeDomain`'s step 1 (0 when both fail). -/
def lengthOf (env : ProbeEnv) : Int :=
  match env.httpsResp with
  | some r => r.contentLength
  | none =>
    match env.httpResp with
    | some r => r.contentLength
    | none => 0

/-- Body captured by `probeDomain`'s step 1: a 10 KiB-capped read of the
winning attempt's body; empty when both attempts fail. -/
def bodyOf (env : ProbeEnv) : String :=
  match env.httpsResp with
  | some r => takeChars 10240 r.body
  | none =>
    match env.httpResp with
    | some r => takeChars 10240 r.body
    | none => ""

/-- `result.CNAME` after `probeDomain`'s step 2: head of the chain when
the lookup succeeded with a non-empty chain, otherwise left `""`. -/
def cnameOf (env : ProbeEnv) : String :=
  match env.cnameChain with
  | some (c :: _) => c
  | _ => ""

/-- One provider of the takeover loop (step 3): the inner pattern loop
breaks at the first CNAME pattern contained in `result.CNAME`; only then
are the provider's body fingerprints tried (first hit fires once). -/
def takeoverStep (respOk : Bool) (body : String) (r : ProbeResult)
    (sig : TakeoverSig) : ProbeResult :=
  match sig.cname.find? (fun p => strContains r.CNAME p) with
  | none => r
  | some _ =>
    match sig.bodyMatches.find? (fun m => respOk && strContains body m) with
    | none => r
    | some _ =>
      { r with
        IsTakeover := true,
        Vulnerabilities := r.Vulnerabilities ++ ["Subdomain Takeover (" ++ sig.provider ++ ")"],
        Tags := r.Tags ++ ["TAKEOVER-CANDIDATE", sig.provider] }

/-- Step 3 of `probeDomain` (subdomain-takeover check). -/
def takeoverStage (respOk : Bool) (body : String) (r : ProbeResult) : ProbeResult :=
  if r.CNAME ≠ "" then takeoversignatures.foldl (takeoverStep respOk body) r else r

/-- Step 4 of `probeDomain` (S3 bucket check). -/
def s3Stage (env : ProbeEnv) (respOk : Bool) (body : String) (r : ProbeResult) :
    ProbeResult :=
  if (r.CNAME ≠ "" && (strContains r.CNAME "s3.amazonaws.com" ||
        strContains r.CNAME "amazonaws.com")) ||
      (respOk && strContains body "<ListBucketResult") then
    if strContains body "<ListBucketResult" then
      let r' := { r with
        S3Public := true,
        Vulnerabilities := r.Vulnerabilities ++ ["Public S3 Bucket"],
        Tags := r.Tags ++ ["PUBLIC-S3"] }
      match env.s3Keys with
      | some keys =>
        if 0 < keys.length then { r' with ExposedFiles := keys.take 5 } else r'
      | none => r'
    else if strContains body "AccessDenied" then
      { r with S3Private := true, Tags := r.Tags ++ ["PRIVATE-S3"] }
    else if strContains body "NoSuchBucket" then
      { r with
        Vulnerabilities := r.Vulnerabilities ++ ["Unclaimed S3 Bucket"],
        Tags := r.Tags ++ ["UNCLAIMED-S3"] }
    else r
  else r

/-- The `EXPOSED-…` tag of a sensitive-file finding: last `/`-segment of
the path, uppercased (`strings.Split` + `strings.ToUpper`). -/
def exposedTag (path : String) : String :=
  "EXPOSED-" ++ ((path.splitOn "/").getLastD "").toUpper

/-- One path of the sensitive-file loop body (step 5), after the budget
check: the extra GET, the 200 check, and the first-matching content
signature.  The body read is capped at 5 KiB. -/
def fileStep (env : ProbeEnv) (domain : String) (r : ProbeResult)
    (fp : FileSig) : ProbeResult :=
  match env.fileResp ("https://" ++ domain ++ fp.path) with
  | none => r
  | some sb =>
    if sb.1 = 200 then
      let fileBody := takeChars 5120 sb.2
      match fp.contentSigs.find? (fun sig => strContains fileBody sig) with
      | some _ =>
        { r with
          Vulnerabilities := r.Vulnerabilities ++ ["Exposed " ++ fp.description],
          Tags := r.Tags ++ [exposedTag fp.path],
          ExposedFiles := r.ExposedFiles ++ [fp.path] }
      | none => r
    else r

/-- Step 5 of `probeDomain` (sensitive-file checks): the loop breaks as
soon as 5 vulnerabilities have been recorded. -/
def sensitiveStage (env : ProbeEnv) (domain : String) :
    List FileSig → ProbeResult → ProbeResult
  | [], r => r
  | fp :: rest, r =>
    if 5 ≤ r.Vulnerabilities.length then r
    else sensitiveStage env domain rest (fileStep env domain r fp)

/-- One pattern of the open-redirect loop body (step 6), after the budget
checks: issue the probe GET and record a finding when a 3xx response's
`Location` echoes the sentinel host. -/
def redirectStep (env : ProbeEnv) (domain : String) (r : ProbeResult)
    (rp : RedirPattern) : ProbeResult :=
  let testURL := "https://" ++ domain ++ rp.pathPattern ++ "?" ++ rp.param ++
    "=https://evil.com"
  match env.redirResp testURL with
  | none => r
  | some sl =>
    if 300 ≤ sl.1 && sl.1 < 400 then
      if strContains sl.2 "evil.com" then
        { r with
          OpenRedirect := true, RedirectURL := testURL,
          Vulnerabilities := r.Vulnerabilities ++ ["Open Redirect"],
          Tags := r.Tags ++ ["OPEN-REDIRECT"] }
      else r
    else r

/-- Step 6 of `probeDomain` (open-redirect checks): the loop breaks once a
redirect was found or 5 vulnerabilities have been recorded. -/
def redirectStage (env : ProbeEnv) (domain : String) :
    List RedirPattern → ProbeResult → ProbeResult
  | [], r => r
  | rp :: rest, r =>
    if r.OpenRedirect then r
    else if 5 ≤ r.Vulnerabilities.length then r
    else redirectStage env domain rest (redirectStep env domain r rp)

/-- `probeDomain` up to and including step 3 (initial request, CNAME,
takeover check). -/
def afterTakeover (env : ProbeEnv) (domain : String) : ProbeResult :=
  let r0 : ProbeResult :=
    { Domain := domain, CNAME := "", HTTPStatus := 0, ContentLength := 0,
      IsTakeover := false, S3Public := false, S3Private := false,
      ExposedFiles := [], RedirectURL := "", OpenRedirect := false,
      Vulnerabilities := [], Tags := [] }
  let r1 := { r0 with HTTPStatus := statusOf env, ContentLength := lengthOf env }
  let r2 := { r1 with CNAME := cnameOf env }
  takeoverStage (respOkOf env) (bodyOf env) r2

/-- Embedding of `probeDomain`: steps 1–6 in source order.  (`ProbeOptions`
only shapes the network calls, which the environment already models.) -/
def probeDomain (env : ProbeEnv) (domain : String) (_options : ProbeOptions) :
    ProbeResult :=
  redirectStage env domain openRedirectPatterns
    (sensitiveStage env domain sensitiveFilePaths
      (s3Stage env (respOkOf env) (bodyOf env)
        (afterTakeover env domain)))

/-- Embedding of `RunProbes`: every domain is probed exactly once; the
channel collects results in scheduling order, modelled as input order. -/
def RunProbes (envs : String → ProbeEnv) (domains : List String)
    (options : ProbeOptions) : List ProbeResult :=
  domains.map (fun d => probeDomain (envs d) d options)

/-! ## Spec-side score decomposition

Independent read-outs of the environment, used to state what the scoring
code computes as one additive formula. -/

/-- The TLS modifier the scorer applies: only a successful HTTPS response
carrying a peer certificate is scored, +0.5 (5) when currently valid,
−0.3 (−3) otherwise. -/
def tlsScoreMod (env : SubdomainEnv) : Int :=
  match env.httpsResp with
  | some r =>
    match r.tlsCert with
    | some cert =>
      if env.now < cert.notAfter && cert.notBefore < env.now then 5 else -3
    | none => 0
  | none => 0

/-- The status code the probing block captures (0 when both attempts fail). -/
def probedStatus (env : SubdomainEnv) : Nat :=
  match env.httpsResp with
  | some r => r.statusCode
  | none =>
    match env.httpResp with
    | some r => r.statusCode
    | none => 0

/-- The content length the probing block captures (0 when both fail). -/
def probedLength (env : SubdomainEnv) : Int :=
  match env.httpsResp with
  | some r => r.contentLength
  | none =>
    match env.httpResp with
    | some r => r.contentLength
    | none => 0

/-- The provider patterns some CNAME of the resolved chain matches
(empty when the lookup failed). -/
def matchedProviders (env : SubdomainEnv) : List (String × String) :=
  match env.cnameChain with
  | some cnames =>
    cloudCnamePatterns.filter (fun pp => cnames.any (fun c => env.regexMatch pp.1 c))
  | none => []

/-- The status-class modifier (tenths): 2xx +1.0, 3xx +0.5, exactly 403
+0.7, other 4xx +0.2, 5xx +0.3, otherwise 0. -/
def statusScoreMod (st : Nat) : Int :=
  if 200 ≤ st && st < 300 then 10
  else if 300 ≤ st && st < 400 then 5
  else if st = 403 then 7
  else if 400 ≤ st && st < 500 then 2
  else if 500 ≤ st then 3
  else 0

/-- The size modifier the code applies: +0.2 only when
`ContentLength/1024 > 100`, i.e. at least 101 full KiB. -/
def sizeScoreMod (len : Int) : Int :=
  if 0 < len && 100 < len / 1024 then 2 else 0

/-- The per-host score as the SPEC/CLAIM words it (second definition for
refinement comparison — from the claim text, not the source): base 1.0;
TLS valid +0.5 / invalid −0.3; +1.0 if the host resolved to a known
provider (a single modifier); status modifiers as listed; +0.2 when the
body is over 100 KiB, i.e. more than 102400 bytes.  In tenths. -/
def claimedScore (tlsValidity : Option Bool) (providerMatched : Bool)
    (status : Nat) (bodyBytes : Int) : Int :=
  10 + (match tlsValidity with | some true => 5 | some false => -3 | none => 0)
    + (if providerMatched then 10 else 0)
    + statusScoreMod status
    + (if 102400 < bodyBytes then 2 else 0)

/-- Descending-by-score ordering, as the spec's "final ordering:
descending by score". -/
def SortedDesc (l : List SubdomainInfo) : Prop :=
  List.Pairwise (fun a b => b.Score ≤ a.Score) l

/-! ## Concrete environments used by counterexamples and witnesses -/

/-- A DNS in which the canonical-name records form the 3-cycle
`a.test → b.test → c.test → a.test` (the scenario named by the claim). -/
def cycleDNS : String → Option String := fun h =>
  if h = "a.test" then some "b.test." else
  if h = "b.test" then some "c.test." else
  if h = "c.test" then some "a.test." else none

/-- `regexp.MatchString` oracle for the C1 scenario, consistent with the
real regexes: `\.cloudfront\.net` matches `a.cloudfront.net` and
`b.cloudfront.net`, `\.github\.io` matches `b.github.io`; no other
pattern of the table matches any of these names. -/
def matchC1 : String → String → Bool := fun pat c =>
  (pat = "\\.cloudfront\\.net" && (c = "a.cloudfront.net" || c = "b.cloudfront.net")) ||
  (pat = "\\.github\\.io" && c = "b.github.io")

/-- A certificate valid at `now = 0`. -/
def validCert : TLSCert :=
  { issuerCN := "CA", dnsNames := [], notBefore := -1, notAfter := 1 }

/-- Environments producing scores 3.0, 2.0, 2.0, 4.0 (all sums of whole
and half units, exact in float64): `h1` = valid TLS + provider + 301,
`h2`/`h3` = valid TLS + 301, `h4` = two providers + 200 without TLS info. -/
def envsC1 : String → SubdomainEnv := fun s =>
  if s = "h1.test" then
    { now := 0,
      httpsResp := some { statusCode := 301, contentLength := 0, headers := [],
                          tlsCert := some validCert },
      httpResp := none, cnameChain := some ["a.cloudfront.net"], regexMatch := matchC1 }
  else if s = "h4.test" then
    { now := 0,
      httpsResp := some { statusCode := 200, contentLength := 0, headers := [],
                          tlsCert := none },
      httpResp := none, cnameChain := some ["b.cloudfront.net", "b.github.io"],
      regexMatch := matchC1 }
  else
    { now := 0,
      httpsResp := some { statusCode := 301, contentLength := 0, headers := [],
                          tlsCert := some validCert },
      httpResp := none, cnameChain := none, regexMatch := matchC1 }

/-- Oracle for the C3 scenario, consistent with the real regexes on the
two tested names (no other table pattern matches either name). -/
def matchC3 : String → String → Bool := fun pat c =>
  (pat = "\\.cloudfront\\.net" && c = "x.cloudfront.net") ||
  (pat = "\\.github\\.io" && c = "y.github.io")

/-- C3 scenario: 200 over HTTPS without certificate data, a CNAME chain
matching two provider patterns, and a 102500-byte body (over 100 KiB =
102400 bytes, but `102500/1024 = 100` is not `> 100`). -/
def envC3 : SubdomainEnv :=
  { now := 0,
    httpsResp := some { statusCode := 200, contentLength := 102500, headers := [],
                        tlsCert := none },
    httpResp := none,
    cnameChain := some ["x.cloudfront.net", "y.github.io"],
    regexMatch := matchC3 }

/-- C9 witness scenario: both probes fail, CNAME resolves but matches no
pattern (oracle constantly false). -/
def envC9 : SubdomainEnv :=
  { now := 0, httpsResp := none, httpResp := none,
    cnameChain := some ["cdn.test"], regexMatch := fun _ _ => false }

/-- A probe environment with no reachable services at all. -/
def probeEnvDown : ProbeEnv :=
  { httpsResp := none, httpResp := none, cnameChain := some ["alias.test"],
    s3Keys := none, fileResp := fun _ => none, redirResp := fun _ => none }

/-- C5 counterexample scenario: reachable host whose body is exactly the
access-denied marker, with no CNAME record (empty chain). -/
def envC5 : ProbeEnv :=
  { httpsResp := some { statusCode := 403, contentLength := 0, body := "AccessDenied" },
    httpResp := none, cnameChain := some [], s3Keys := none,
    fileResp := fun _ => none, redirResp := fun _ => none }

/-- C5 witness scenario: a public listing body with seven parsed keys. -/
def envC5w : ProbeEnv :=
  { httpsResp := some { statusCode := 200, contentLength := 0,
                        body := "<ListBucketResult" },
    httpResp := none, cnameChain := some [],
    s3Keys := some ["k1", "k2", "k3", "k4", "k5", "k6", "k7"],
    fileResp := fun _ => none, redirResp := fun _ => none }

/-- C6 spec scenario: first (and only) hop matches Heroku's pattern and
the body carries Heroku's fingerprint. -/
def envHeroku : ProbeEnv :=
  { httpsResp := some { statusCode := 404, contentLength := 0, body := "No such app" },
    httpResp := none, cnameChain := some ["dead.herokuapp.com"], s3Keys := none,
    fileResp := fun _ => none, redirResp := fun _ => none }

/-- C6 counterexample scenario: the chain CONTAINS a hop matching
Heroku's pattern, but only in second position; the body carries the
fingerprint. -/
def envC6 : ProbeEnv :=
  { httpsResp := some { statusCode := 404, contentLength := 0, body := "No such app" },
    httpResp := none, cnameChain := some ["x.safe.test", "y.herokuapp.com"],
    s3Keys := none, fileResp := fun _ => none, redirResp := fun _ => none }

/-- C7 counterexample scenario: the first hop's name contains five
providers' alias patterns, the body all five fingerprints plus the
bucket-listing marker. -/
def envC7 : ProbeEnv :=
  { httpsResp := some { statusCode := 200, contentLength := 0, body := "No such app Repository not found project not found 404 Not Found <ListBucketResult" },
    httpResp := none,
    cnameChain := some ["x.herokuapp.com.digitalocean.com.bitbucket.io.surge.sh.ghost.io"],
    s3Keys := none, fileResp := fun _ => none, redirResp := fun _ => none }

/-! ## Properties of the exchange sort -/

theorem selectSwap_length (c : SubdomainInfo) (l : List SubdomainInfo) :
    (selectSwap c l).2.length = l.length := by
  induction l generalizing c with
  | nil => rfl
  | cons e rest ih =>
    by_cases h : c.Score < e.Score
    · simp [selectSwap, h, ih]
    · simp [selectSwap, h, ih]

theorem selectSwap_perm (c : SubdomainInfo) (l : List SubdomainInfo) :
    List.Perm ((selectSwap c l).1 :: (selectSwap c l).2) (c :: l) := by
  induction l generalizing c with
  | nil => simp [selectSwap]
  | cons e rest ih =>
    by_cases h : c.Score < e.Score
    · simp only [selectSwap, if_pos h]
      exact (List.Perm.swap c (selectSwap e rest).1 (selectSwap e rest).2).trans
        ((ih e).cons c)
    · simp only [selectSwap, if_neg h]
      exact ((List.Perm.swap e (selectSwap c rest).1 (selectSwap c rest).2).trans
        ((ih c).cons e)).trans (List.Perm.swap c e rest)

theorem selectSwap_max (c : SubdomainInfo) (l : List SubdomainInfo) :
    c.Score ≤ (selectSwap c l).1.Score ∧
      ∀ x ∈ (selectSwap c l).2, x.Score ≤ (selectSwap c l).1.Score := by
  induction l generalizing c with
  | nil => exact ⟨le_refl _, by simp [selectSwap]⟩
  | cons e rest ih =>
    by_cases h : c.Score < e.Score
    · simp only [selectSwap, if_pos h]
      obtain ⟨h1, h2⟩ := ih e
      refine ⟨le_of_lt (lt_of_lt_of_le h h1), ?_⟩
      intro x hx
      rcases List.mem_cons.mp hx with hx | hx
      · subst hx; exact le_of_lt (lt_of_lt_of_le h h1)
      · exact h2 x hx
    · simp only [selectSwap, if_neg h]
      obtain ⟨h1, h2⟩ := ih c
      refine ⟨h1, ?_⟩
      intro x hx
      rcases List.mem_cons.mp hx with hx | hx
      · subst hx; exact le_trans (not_lt.mp h) h1
      · exact h2 x hx

theorem sortByScoreGo_perm (n : Nat) :
    ∀ l : List SubdomainInfo, l.length ≤ n →
      List.Perm (sortByScoreGo n l) l := by
  induction n with
  | zero => intro l _; exact List.Perm.refl _
  | succ n ih =>
    intro l h
    match l with
    | [] => exact List.Perm.refl _
    | x :: xs =>
      simp only [sortByScoreGo]
      have hlen : (selectSwap x xs).2.length ≤ n := by
        rw [selectSwap_length]
        simpa using Nat.lt_succ_iff.mp (Nat.lt_of_lt_of_le (by simp) h)
      exact ((ih _ hlen).cons _).trans (selectSwap_perm x xs)

theorem sortByScoreGo_sorted (n : Nat) :
    ∀ l : List SubdomainInfo, l.length ≤ n →
      SortedDesc (sortByScoreGo n l) := by
  induction n with
  | zero => intro l h
            have : l = [] := List.length_eq_zero.mp (Nat.le_zero.mp h)
            subst this; exact List.Pairwise.nil
  | succ n ih =>
    intro l h
    match l with
    | [] => exact List.Pairwise.nil
    | x :: xs =>
      have hxs : xs.length ≤ n := by simpa using h
      have hlen : (selectSwap x xs).2.length ≤ n := by rw [selectSwap_length]; exact hxs
      simp only [sortByScoreGo, SortedDesc]
      refine List.Pairwise.cons ?_ (ih _ hlen)
      intro y hy
      have hperm := sortByScoreGo_perm n (selectSwap x xs).2 hlen
      exact (selectSwap_max x xs).2 y (hperm.mem_iff.mp hy)

theorem sortByScore_perm (l : List SubdomainInfo) :
    List.Perm (sortByScore l) l :=
  sortByScoreGo_perm l.length l (le_refl _)

theorem sortByScore_sorted (l : List SubdomainInfo) :
    SortedDesc (sortByScore l) :=
  sortByScoreGo_sorted l.length l (le_refl _)

/-! ## Decomposition of the scorer's mutation chain -/

theorem httpStep_spec (env : SubdomainEnv) (s : String) (o : AnalysisOptions) :
    (httpStep env s o).Score = 10 + tlsScoreMod env ∧
    (httpStep env s o).HTTPStatus = probedStatus env ∧
    (httpStep env s o).ContentLength = probedLength env ∧
    (httpStep env s o).Subdomain = s := by
  unfold httpStep tlsScoreMod probedStatus probedLength
  cases hh : env.httpsResp with
  | some r =>
    cases hc : r.tlsCert with
    | some cert =>
      by_cases hv : (env.now < cert.notAfter && cert.notBefore < env.now) = true
      · simp [hc, hv]
      · simp [hc, hv]
    | none => simp [hc]
  | none =>
    cases env.httpResp with
    | some r => simp
    | none => simp

theorem cloudFold_spec (env : SubdomainEnv) (cnames : List String)
    (pats : List (String × String)) (acc : SubdomainInfo) :
    (pats.foldl (cloudStep env cnames) acc).Score
        = acc.Score
          + 10 * (pats.filter (fun pp => cnames.any (fun c => env.regexMatch pp.1 c))).length ∧
    (pats.foldl (cloudStep env cnames) acc).HTTPStatus = acc.HTTPStatus ∧
    (pats.foldl (cloudStep env cnames) acc).ContentLength = acc.ContentLength ∧
    (pats.foldl (cloudStep env cnames) acc).Subdomain = acc.Subdomain ∧
    (pats.foldl (cloudStep env cnames) acc).Tags
        = acc.Tags
          ++ (pats.filter (fun pp => cnames.any (fun c => env.regexMatch pp.1 c))).map
              (fun pp => pp.2) := by
  induction pats generalizing acc with
  | nil => simp
  | cons pp rest ih =>
    by_cases h : (cnames.any (fun c => env.regexMatch pp.1 c)) = true
    · obtain ⟨ih1, ih2, ih3, ih4, ih5⟩ :=
        ih { acc with
              CloudProvider := pp.2, Tags := acc.Tags ++ [pp.2],
              Score := acc.Score + 10 }
      simp only [List.foldl_cons, List.filter_cons, h, if_true, cloudStep]
      refine ⟨?_, by simpa using ih2, by simpa using ih3, by simpa using ih4, ?_⟩
      · rw [ih1]; simp; omega
      · rw [ih5]; simp
    · obtain ⟨ih1, ih2, ih3, ih4, ih5⟩ := ih acc
      simp only [List.foldl_cons, List.filter_cons, h, cloudStep, if_false,
        Bool.false_eq_true]
      exact ⟨ih1, ih2, ih3, ih4, ih5⟩

theorem cnameStep_spec (env : SubdomainEnv) (i : SubdomainInfo) :
    (cnameStep env i).Score = i.Score + 10 * (matchedProviders env).length ∧
    (cnameStep env i).HTTPStatus = i.HTTPStatus ∧
    (cnameStep env i).ContentLength = i.ContentLength ∧
    (cnameStep env i).Subdomain = i.Subdomain ∧
    (cnameStep env i).Tags = i.Tags ++ (matchedProviders env).map (fun pp => pp.2) := by
  unfold cnameStep matchedProviders
  cases env.cnameChain with
  | some cnames =>
    obtain ⟨h1, h2, h3, h4, h5⟩ :=
      cloudFold_spec env cnames cloudCnamePatterns { i with CNAMEs := cnames }
    exact ⟨by simpa using h1, by simpa using h2, by simpa using h3,
      by simpa using h4, by simpa using h5⟩
  | none => simp

theorem statusStep_spec (i : SubdomainInfo) :
    (statusStep i).Score = i.Score + statusScoreMod i.HTTPStatus ∧
    (statusStep i).HTTPStatus = i.HTTPStatus ∧
    (statusStep i).ContentLength = i.ContentLength ∧
    (statusStep i).Subdomain = i.Subdomain := by
  unfold statusStep statusScoreMod
  split_ifs <;> simp

theorem sizeStep_spec (i : SubdomainInfo) :
    (sizeStep i).Score = i.Score + sizeScoreMod i.ContentLength ∧
    (sizeStep i).HTTPStatus = i.HTTPStatus ∧
    (sizeStep i).ContentLength = i.ContentLength ∧
    (sizeStep i).Subdomain = i.Subdomain := by
  unfold sizeStep sizeScoreMod
  by_cases h0 : 0 < i.ContentLength
  · by_cases h1 : 100 < i.ContentLength / 1024
    · simp [h0, h1]
    · simp [h0, h1]
  · simp [h0]

theorem analyzeSubdomain_Subdomain (env : SubdomainEnv) (s : String)
    (o : AnalysisOptions) : (analyzeSubdomain env s o).Subdomain = s := by
  unfold analyzeSubdomain
  rw [(sizeStep_spec _).2.2.2, (statusStep_spec _).2.2.2,
    (cnameStep_spec _ _).2.2.2.1, (httpStep_spec _ _ _).2.2.2]

/-! ## Frame properties of the probe stages -/

/-- What one takeover check leaves untouched, and what it only grows. -/
theorem takeoverStep_pres (respOk : Bool) (body : String) (r : ProbeResult)
    (sig : TakeoverSig) :
    (takeoverStep respOk body r sig).Domain = r.Domain ∧
    (takeoverStep respOk body r sig).HTTPStatus = r.HTTPStatus ∧
    (takeoverStep respOk body r sig).ContentLength = r.ContentLength ∧
    (takeoverStep respOk body r sig).CNAME = r.CNAME ∧
    (r.IsTakeover = true → (takeoverStep respOk body r sig).IsTakeover = true) ∧
    (∀ t ∈ r.Tags, t ∈ (takeoverStep respOk body r sig).Tags) := by
  unfold takeoverStep
  repeat' split
  all_goals refine ⟨rfl, rfl, rfl, rfl, ?_, fun t ht => ?_⟩
  all_goals simp_all

theorem takeoverFold_pres (respOk : Bool) (body : String)
    (sigs : List TakeoverSig) (r : ProbeResult) :
    (sigs.foldl (takeoverStep respOk body) r).Domain = r.Domain ∧
    (sigs.foldl (takeoverStep respOk body) r).HTTPStatus = r.HTTPStatus ∧
    (sigs.foldl (takeoverStep respOk body) r).ContentLength = r.ContentLength ∧
    (sigs.foldl (takeoverStep respOk body) r).CNAME = r.CNAME ∧
    (r.IsTakeover = true → (sigs.foldl (takeoverStep respOk body) r).IsTakeover = true) ∧
    (∀ t ∈ r.Tags, t ∈ (sigs.foldl (takeoverStep respOk body) r).Tags) := by
  induction sigs generalizing r with
  | nil => exact ⟨by trivial, by trivial, by trivial, by trivial, fun h => h, fun t ht => ht⟩
  | cons sig rest ih =>
    obtain ⟨s1, s2, s3, s4, s5, s6⟩ := takeoverStep_pres respOk body r sig
    obtain ⟨i1, i2, i3, i4, i5, i6⟩ := ih (takeoverStep respOk body r sig)
    exact ⟨by rw [List.foldl_cons, i1, s1], by rw [List.foldl_cons, i2, s2],
      by rw [List.foldl_cons, i3, s3], by rw [List.foldl_cons, i4, s4],
      fun h => i5 (s5 h), fun t ht => i6 t (s6 t ht)⟩

theorem takeoverStage_pres (respOk : Bool) (body : String) (r : ProbeResult) :
    (takeoverStage respOk body r).Domain = r.Domain ∧
    (takeoverStage respOk body r).HTTPStatus = r.HTTPStatus ∧
    (takeoverStage respOk body r).ContentLength = r.ContentLength ∧
    (takeoverStage respOk body r).CNAME = r.CNAME ∧
    (r.IsTakeover = true → (takeoverStage respOk body r).IsTakeover = true) ∧
    (∀ t ∈ r.Tags, t ∈ (takeoverStage respOk body r).Tags) := by
  unfold takeoverStage
  split
  · exact takeoverFold_pres respOk body takeoversignatures r
  · exact ⟨by trivial, by trivial, by trivial, by trivial, fun h => h, fun t ht => ht⟩

theorem s3Stage_pres (env : ProbeEnv) (respOk : Bool) (body : String)
    (r : ProbeResult) :
    (s3Stage env respOk body r).Domain = r.Domain ∧
    (s3Stage env respOk body r).HTTPStatus = r.HTTPStatus ∧
    (s3Stage env respOk body r).ContentLength = r.ContentLength ∧
    (s3Stage env respOk body r).CNAME = r.CNAME ∧
    (s3Stage env respOk body r).IsTakeover = r.IsTakeover ∧
    (∀ t ∈ r.Tags, t ∈ (s3Stage env respOk body r).Tags) := by
  unfold s3Stage
  repeat' split
  all_goals refine ⟨rfl, rfl, rfl, rfl, rfl, fun t ht => ?_⟩
  all_goals simp_all

theorem fileStep_pres (env : ProbeEnv) (d : String) (r : ProbeResult)
    (fp : FileSig) :
    (fileStep env d r fp).Domain = r.Domain ∧
    (fileStep env d r fp).HTTPStatus = r.HTTPStatus ∧
    (fileStep env d r fp).ContentLength = r.ContentLength ∧
    (fileStep env d r fp).CNAME = r.CNAME ∧
    (fileStep env d r fp).IsTakeover = r.IsTakeover ∧
    (∀ t ∈ r.Tags, t ∈ (fileStep env d r fp).Tags) := by
  unfold fileStep
  cases env.fileResp ("https://" ++ d ++ fp.path) with
  | none => exact ⟨by trivial, by trivial, by trivial, by trivial, by trivial, fun t ht => ht⟩
  | some sb =>
    by_cases h : sb.1 = 200
    · simp only [if_pos h]
      cases hfind : fp.contentSigs.find? (fun sig => strContains (takeChars 5120 sb.2) sig) with
      | some v =>
        simp only [hfind]
        exact ⟨by trivial, by trivial, by trivial, by trivial, by trivial, fun t ht => by simp [ht]⟩
      | none =>
        simp only [hfind]
        exact ⟨by trivial, by trivial, by trivial, by trivial, by trivial, fun t ht => ht⟩
    · simp only [if_neg h]
      exact ⟨by trivial, by trivial, by trivial, by trivial, by trivial, fun t ht => ht⟩

theorem sensitiveStage_pres (env : ProbeEnv) (d : String) (l : List FileSig)
    (r : ProbeResult) :
    (sensitiveStage env d l r).Domain = r.Domain ∧
    (sensitiveStage env d l r).HTTPStatus = r.HTTPStatus ∧
    (sensitiveStage env d l r).ContentLength = r.ContentLength ∧
    (sensitiveStage env d l r).CNAME = r.CNAME ∧
    (sensitiveStage env d l r).IsTakeover = r.IsTakeover ∧
    (∀ t ∈ r.Tags, t ∈ (sensitiveStage env d l r).Tags) := by
  induction l generalizing r with
  | nil => exact ⟨by trivial, by trivial, by trivial, by trivial, by trivial, fun t ht => ht⟩
  | cons fp rest ih =>
    by_cases h : 5 ≤ r.Vulnerabilities.length
    · simp only [sensitiveStage, if_pos h]
      exact ⟨by trivial, by trivial, by trivial, by trivial, by trivial, fun t ht => ht⟩
    · obtain ⟨s1, s2, s3, s4, s5, s6⟩ := fileStep_pres env d r fp
      obtain ⟨i1, i2, i3, i4, i5, i6⟩ := ih (fileStep env d r fp)
      simp only [sensitiveStage, if_neg h]
      exact ⟨by rw [i1, s1], by rw [i2, s2], by rw [i3, s3], by rw [i4, s4],
        by rw [i5, s5], fun t ht => i6 t (s6 t ht)⟩

theorem redirectStep_pres (env : ProbeEnv) (d : String) (r : ProbeResult)
    (rp : RedirPattern) :
    (redirectStep env d r rp).Domain = r.Domain ∧
    (redirectStep env d r rp).HTTPStatus = r.HTTPStatus ∧
    (redirectStep env d r rp).ContentLength = r.ContentLength ∧
    (redirectStep env d r rp).CNAME = r.CNAME ∧
    (redirectStep env d r rp).IsTakeover = r.IsTakeover ∧
    (∀ t ∈ r.Tags, t ∈ (redirectStep env d r rp).Tags) := by
  unfold redirectStep
  dsimp only
  cases env.redirResp ("https://" ++ d ++ rp.pathPattern ++ "?" ++ rp.param ++ "=https://evil.com") with
  | none => exact ⟨by trivial, by trivial, by trivial, by trivial, by trivial, fun t ht => ht⟩
  | some sl =>
    by_cases h3 : (300 ≤ sl.1 && sl.1 < 400) = true
    · simp only [h3, if_true]
      by_cases hloc : strContains sl.2 "evil.com" = true
      · simp only [hloc, if_true]
        exact ⟨by trivial, by trivial, by trivial, by trivial, by trivial,
          fun t ht => by simp [ht]⟩
      · simp only [hloc]
        exact ⟨by trivial, by trivial, by trivial, by trivial, by trivial, fun t ht => ht⟩
    · simp only [h3]
      exact ⟨by trivial, by trivial, by trivial, by trivial, by trivial, fun t ht => ht⟩

theorem redirectStage_pres (env : ProbeEnv) (d : String) (l : List RedirPattern)
    (r : ProbeResult) :
    (redirectStage env d l r).Domain = r.Domain ∧
    (redirectStage env d l r).HTTPStatus = r.HTTPStatus ∧
    (redirectStage env d l r).ContentLength = r.ContentLength ∧
    (redirectStage env d l r).CNAME = r.CNAME ∧
    (redirectStage env d l r).IsTakeover = r.IsTakeover ∧
    (∀ t ∈ r.Tags, t ∈ (redirectStage env d l r).Tags) := by
  induction l generalizing r with
  | nil => exact ⟨by trivial, by trivial, by trivial, by trivial, by trivial, fun t ht => ht⟩
  | cons rp rest ih =>
    by_cases ho : r.OpenRedirect = true
    · simp only [redirectStage, if_pos ho]
      exact ⟨by trivial, by trivial, by trivial, by trivial, by trivial, fun t ht => ht⟩
    · by_cases h : 5 ≤ r.Vulnerabilities.length
      · simp only [redirectStage, if_neg ho, if_pos h]
        exact ⟨by trivial, by trivial, by trivial, by trivial, by trivial, fun t ht => ht⟩
      · obtain ⟨s1, s2, s3, s4, s5, s6⟩ := redirectStep_pres env d r rp
        obtain ⟨i1, i2, i3, i4, i5, i6⟩ := ih (redirectStep env d r rp)
        simp only [redirectStage, if_neg ho, if_neg h]
        exact ⟨by rw [i1, s1], by rw [i2, s2], by rw [i3, s3], by rw [i4, s4],
          by rw [i5, s5], fun t ht => i6 t (s6 t ht)⟩

/-- The state `probeDomain` hands to the detection stages. -/
theorem afterTakeover_pres (env : ProbeEnv) (d : String) :
    (afterTakeover env d).Domain = d ∧
    (afterTakeover env d).HTTPStatus = statusOf env ∧
    (afterTakeover env d).ContentLength = lengthOf env ∧
    (afterTakeover env d).CNAME = cnameOf env := by
  unfold afterTakeover
  obtain ⟨t1, t2, t3, t4, _, _⟩ := takeoverStage_pres (respOkOf env) (bodyOf env)
    { Domain := d, CNAME := cnameOf env, HTTPStatus := statusOf env,
      ContentLength := lengthOf env, IsTakeover := false, S3Public := false,
      S3Private := false, ExposedFiles := [], RedirectURL := "",
      OpenRedirect := false, Vulnerabilities := [], Tags := [] }
  exact ⟨t1, t2, t3, t4⟩

/-- Fields of the final result that are fixed by step 1/2 of `probeDomain`. -/
theorem probeDomain_pres (env : ProbeEnv) (d : String) (o : ProbeOptions) :
    (probeDomain env d o).Domain = d ∧
    (probeDomain env d o).HTTPStatus = statusOf env ∧
    (probeDomain env d o).ContentLength = lengthOf env ∧
    (probeDomain env d o).CNAME = cnameOf env := by
  unfold probeDomain
  obtain ⟨a1, a2, a3, a4⟩ := afterTakeover_pres env d
  obtain ⟨s1, s2, s3, s4, _, _⟩ :=
    s3Stage_pres env (respOkOf env) (bodyOf env) (afterTakeover env d)
  obtain ⟨f1, f2, f3, f4, _, _⟩ := sensitiveStage_pres env d sensitiveFilePaths
    (s3Stage env (respOkOf env) (bodyOf env) (afterTakeover env d))
  obtain ⟨r1, r2, r3, r4, _, _⟩ := redirectStage_pres env d openRedirectPatterns
    (sensitiveStage env d sensitiveFilePaths
      (s3Stage env (respOkOf env) (bodyOf env) (afterTakeover env d)))
  exact ⟨by rw [r1, f1, s1, a1], by rw [r2, f2, s2, a2],
    by rw [r3, f3, s3, a3], by rw [r4, f4, s4, a4]⟩

/-! ## When the takeover stage fires -/

theorem takeoverStep_fires (respOk : Bool) (body : String) (r : ProbeResult)
    (sig : TakeoverSig)
    (hc : ∃ p ∈ sig.cname, strContains r.CNAME p = true)
    (hb : ∃ m ∈ sig.bodyMatches, (respOk && strContains body m) = true) :
    (takeoverStep respOk body r sig).IsTakeover = true ∧
    sig.provider ∈ (takeoverStep respOk body r sig).Tags := by
  unfold takeoverStep
  obtain ⟨p, hp, hps⟩ := hc
  obtain ⟨m, hm, hms⟩ := hb
  cases hfind : sig.cname.find? (fun q => strContains r.CNAME q) with
  | none => exact absurd hps (by simpa using List.find?_eq_none.mp hfind p hp)
  | some q =>
    cases hfind2 : sig.bodyMatches.find? (fun mm => respOk && strContains body mm) with
    | none => exact absurd hms (by simpa using List.find?_eq_none.mp hfind2 m hm)
    | some mm =>
      simp only [hfind, hfind2]
      exact ⟨by trivial, by simp⟩

theorem takeoverFold_fires (respOk : Bool) (body : String)
    (sigs : List TakeoverSig) (sig : TakeoverSig) (hmem : sig ∈ sigs)
    (hb : ∃ m ∈ sig.bodyMatches, (respOk && strContains body m) = true) :
    ∀ r : ProbeResult, (∃ p ∈ sig.cname, strContains r.CNAME p = true) →
      (sigs.foldl (takeoverStep respOk body) r).IsTakeover = true ∧
      sig.provider ∈ (sigs.foldl (takeoverStep respOk body) r).Tags := by
  induction sigs with
  | nil => cases hmem
  | cons s rest ih =>
    intro r hc
    rw [List.foldl_cons]
    rcases List.mem_cons.mp hmem with heq | hmem'
    · subst heq
      obtain ⟨f1, f2⟩ := takeoverStep_fires respOk body r sig hc hb
      obtain ⟨_, _, _, _, p5, p6⟩ :=
        takeoverFold_pres respOk body rest (takeoverStep respOk body r sig)
      exact ⟨p5 f1, p6 _ f2⟩
    · obtain ⟨_, _, _, c4, _, _⟩ := takeoverStep_pres respOk body r s
      obtain ⟨p, hp, hps⟩ := hc
      exact ih hmem' (takeoverStep respOk body r s) ⟨p, hp, by rwa [c4]⟩

theorem takeoverStage_fires (respOk : Bool) (body : String) (r : ProbeResult)
    (sig : TakeoverSig) (hmem : sig ∈ takeoversignatures)
    (hc : ∃ p ∈ sig.cname, strContains r.CNAME p = true)
    (hb : ∃ m ∈ sig.bodyMatches, (respOk && strContains body m) = true)
    (hne : r.CNAME ≠ "") :
    (takeoverStage respOk body r).IsTakeover = true ∧
    sig.provider ∈ (takeoverStage respOk body r).Tags := by
  unfold takeoverStage
  rw [if_pos hne]
  exact takeoverFold_fires respOk body takeoversignatures sig hmem hb r hc

/-! ## The finding budget checks of steps 5 and 6 -/

theorem sensitiveStage_budget (env : ProbeEnv) (d : String) (l : List FileSig)
    (r : ProbeResult) (h : 5 ≤ r.Vulnerabilities.length) :
    sensitiveStage env d l r = r := by
  cases l with
  | nil => rfl
  | cons fp rest => simp only [sensitiveStage, if_pos h]

theorem redirectStage_budget (env : ProbeEnv) (d : String) (l : List RedirPattern)
    (r : ProbeResult) (h : 5 ≤ r.Vulnerabilities.length) :
    redirectStage env d l r = r := by
  cases l with
  | nil => rfl
  | cons rp rest =>
    by_cases ho : r.OpenRedirect = true
    · simp only [redirectStage, if_pos ho]
    · simp only [redirectStage, if_neg ho, if_pos h]

/-! ## Divergence of the alias-chain recursion on a CNAME cycle -/

theorem cycleDNS_diverges (fuel : Nat) :
    lookupCNAME cycleDNS fuel "a.test" = none ∧
    lookupCNAME cycleDNS fuel "b.test" = none ∧
    lookupCNAME cycleDNS fuel "c.test" = none := by
  induction fuel with
  | zero => exact ⟨rfl, rfl, rfl⟩
  | succ n ih =>
    refine ⟨?_, ?_, ?_⟩
    · have ha : lookupCNAME cycleDNS (n + 1) "a.test"
          = (match lookupCNAME cycleDNS n "b.test" with
             | none => none
             | some nested => some (some ("b.test" :: nested.getD []))) := rfl
      rw [ha, ih.2.1]
    · have hb : lookupCNAME cycleDNS (n + 1) "b.test"
          = (match lookupCNAME cycleDNS n "c.test" with
             | none => none
             | some nested => some (some ("c.test" :: nested.getD []))) := rfl
      rw [hb, ih.2.2]
    · have hc : lookupCNAME cycleDNS (n + 1) "c.test"
          = (match lookupCNAME cycleDNS n "a.test" with
             | none => none
             | some nested => some (some ("a.test" :: nested.getD []))) := rfl
      rw [hc, ih.1]

/-! ## Remaining auxiliary lemmas for the claims -/

theorem statusStep_zero (i : SubdomainInfo) (h : i.HTTPStatus = 0) :
    statusStep i = i := by
  unfold statusStep
  rw [h]
  simp

theorem sizeStep_zero (i : SubdomainInfo) (h : i.ContentLength = 0) :
    sizeStep i = i := by
  unfold sizeStep
  rw [h]
  simp

/-! ## The claims -/

/-- C1, counterexample: the exchange sort of `sortByScore` is not stable.
With per-host scores 3.0, 2.0, 2.0, 4.0 (discovery order `h1 h2 h3 h4`),
the equally-scored `h2` and `h3` come out in REVERSED discovery order:
the sort of `AnalyzeSubdomains` yields `h4 h1 h3 h2`. -/
theorem c1_counterexample :
    (analyzeSubdomain (envsC1 "h2.test") "h2.test" DefaultOptions).Score
      = (analyzeSubdomain (envsC1 "h3.test") "h3.test" DefaultOptions).Score ∧
    (AnalyzeSubdomains envsC1 ["h1.test", "h2.test", "h3.test", "h4.test"]
        DefaultOptions).map (fun r => r.Subdomain)
      = ["h4.test", "h1.test", "h3.test", "h2.test"] := by
  decide

/-- C1 (amended): for every result set of size at least 2 produced by the
scoring analysis, the final ordering is descending (non-increasing) by
score and is a permutation of the per-host analysis results; ties need
NOT retain discovery order (the exchange sort is not stable). -/
theorem c1_amended_descending (envs : String → SubdomainEnv)
    (subs : List String) (o : AnalysisOptions) (_h : 2 ≤ subs.length) :
    SortedDesc (AnalyzeSubdomains envs subs o) ∧
    List.Perm (AnalyzeSubdomains envs subs o)
      (subs.map (fun s => analyzeSubdomain (envs s) s o)) :=
  ⟨sortByScore_sorted _, sortByScore_perm _⟩

/-- Witness for C1's amended theorem at the concrete 4-host scenario. -/
theorem c1_amended_descending_witness :
    2 ≤ (["h1.test", "h2.test", "h3.test", "h4.test"] : List String).length ∧
    (SortedDesc (AnalyzeSubdomains envsC1 ["h1.test", "h2.test", "h3.test", "h4.test"]
        DefaultOptions) ∧
      List.Perm (AnalyzeSubdomains envsC1 ["h1.test", "h2.test", "h3.test", "h4.test"]
          DefaultOptions)
        (["h1.test", "h2.test", "h3.test", "h4.test"].map
          (fun s => analyzeSubdomain (envsC1 s) s DefaultOptions))) :=
  ⟨by decide, c1_amended_descending envsC1 ["h1.test", "h2.test", "h3.test", "h4.test"]
    DefaultOptions (by decide)⟩

/-- C2: on the 3-cycle `a.test → b.test → c.test → a.test` the source's
`lookupCNAME` recursion never completes: for EVERY fuel bound the
fuel-indexed embedding is still running when the fuel runs out, i.e. the
Go original recurses forever instead of returning the 3-hop chain the
claim (and spec §4.1/§8) requires.  This is the code bug the spec's §9
design note acknowledges ("unbounded recursive alias following"). -/
theorem c2_cycle_diverges : ∀ fuel : Nat,
    lookupCNAME cycleDNS fuel "a.test" = none :=
  fun fuel => (cycleDNS_diverges fuel).1

/-- C3, counterexample: at `envC3` (two provider patterns matched by the
CNAME chain, status 200, 102500-byte body) the code's score is 4.0
(base 1.0 + 1.0 + 1.0 for TWO provider patterns + 1.0 for 2xx + nothing
for size since `102500/1024 = 100` is not `> 100`), while the claim's
formula gives 3.2 (single +1.0 provider modifier, +0.2 because
102500 bytes is over 100 KiB = 102400 bytes). -/
theorem c3_counterexample :
    tlsScoreMod envC3 = 0 ∧
    probedStatus envC3 = 200 ∧
    probedLength envC3 = 102500 ∧
    (matchedProviders envC3).length = 2 ∧
    (102400 : Int) < 102500 ∧
    (analyzeSubdomain envC3 "cdn.test" DefaultOptions).Score = 40 ∧
    claimedScore none true 200 102500 = 32 ∧
    (analyzeSubdomain envC3 "cdn.test" DefaultOptions).Score
      ≠ claimedScore none true 200 102500 := by
  decide

/-- C3 (amended): the final score equals base 1.0 plus the TLS modifier
(+0.5 valid / −0.3 invalid, only when HTTPS delivered a certificate),
plus 1.0 for EACH provider pattern some CNAME hop matches, plus the
status-class modifier (2xx +1.0, 3xx +0.5, exactly 403 +0.7, other 4xx
+0.2, 5xx +0.3), plus 0.2 when `ContentLength/1024 > 100` (at least 101
full KiB, not merely over 100 KiB); no clamp.  (Scores in tenths.) -/
theorem c3_amended_score_formula (env : SubdomainEnv) (s : String)
    (o : AnalysisOptions) :
    (analyzeSubdomain env s o).Score =
      10 + tlsScoreMod env + 10 * ((matchedProviders env).length : Int)
        + statusScoreMod (probedStatus env) + sizeScoreMod (probedLength env) := by
  unfold analyzeSubdomain
  obtain ⟨h1, h2, h3, _⟩ := httpStep_spec env s o
  obtain ⟨c1, c2, c3, _, _⟩ := cnameStep_spec env (httpStep env s o)
  obtain ⟨s1, s2, s3, _⟩ := statusStep_spec (cnameStep env (httpStep env s o))
  obtain ⟨z1, _, _, _⟩ := sizeStep_spec (statusStep (cnameStep env (httpStep env s o)))
  rw [z1, s1, c1, h1, s3, c3, h3, c2, h2]

/-- C4: the prober tries HTTPS first (its response is the one captured
when it succeeds), falls back to plain HTTP exactly once otherwise, and
when both attempts fail the captured sentinel is status 0 with an empty
body while evaluation of the host still completes: the final result keeps
the zero status, the domain, and the CNAME produced by the remaining
pipeline stages. -/
theorem c4_https_then_http_fallback (env : ProbeEnv) (d : String)
    (o : ProbeOptions) :
    (∀ r, env.httpsResp = some r →
      statusOf env = r.statusCode ∧ lengthOf env = r.contentLength ∧
      bodyOf env = takeChars 10240 r.body) ∧
    (env.httpsResp = none → ∀ r, env.httpResp = some r →
      statusOf env = r.statusCode ∧ lengthOf env = r.contentLength ∧
      bodyOf env = takeChars 10240 r.body) ∧
    (env.httpsResp = none → env.httpResp = none →
      statusOf env = 0 ∧ lengthOf env = 0 ∧ bodyOf env = "" ∧
      (probeDomain env d o).HTTPStatus = 0 ∧
      (probeDomain env d o).Domain = d ∧
      (probeDomain env d o).CNAME = cnameOf env) := by
  refine ⟨?_, ?_, ?_⟩
  · intro r hr
    unfold statusOf lengthOf bodyOf
    rw [hr]
    exact ⟨rfl, rfl, rfl⟩
  · intro h1 r hr
    unfold statusOf lengthOf bodyOf
    rw [h1, hr]
    exact ⟨rfl, rfl, rfl⟩
  · intro h1 h2
    obtain ⟨p1, p2, _, p4⟩ := probeDomain_pres env d o
    have hs : statusOf env = 0 := by unfold statusOf; rw [h1, h2]
    have hl : lengthOf env = 0 := by unfold lengthOf; rw [h1, h2]
    have hb : bodyOf env = "" := by unfold bodyOf; rw [h1, h2]
    exact ⟨hs, hl, hb, by rw [p2, hs], p1, p4⟩

/-- Witness for C4 at a host whose two probe attempts both fail. -/
theorem c4_https_then_http_fallback_witness :
    statusOf probeEnvDown = 0 ∧ lengthOf probeEnvDown = 0 ∧
    bodyOf probeEnvDown = "" ∧
    (probeDomain probeEnvDown "down.test" DefaultProbeOptions).HTTPStatus = 0 ∧
    (probeDomain probeEnvDown "down.test" DefaultProbeOptions).Domain = "down.test" ∧
    (probeDomain probeEnvDown "down.test" DefaultProbeOptions).CNAME
      = cnameOf probeEnvDown :=
  (c4_https_then_http_fallback probeEnvDown "down.test" DefaultProbeOptions).2.2 rfl rfl

/-- C5, counterexample: a body containing the access-denied marker and no
listing marker does NOT yield a PrivateBucket finding when the CNAME does
not reference the storage provider — the whole stage is skipped because
its trigger (storage-provider CNAME or listing marker in the body) fails,
contradicting the claim's unconditional reading. -/
theorem c5_counterexample :
    strContains (bodyOf envC5) "AccessDenied" = true ∧
    strContains (bodyOf envC5) "<ListBucketResult" = false ∧
    (probeDomain envC5 "bucket.test" DefaultProbeOptions).S3Private = false ∧
    (probeDomain envC5 "bucket.test" DefaultProbeOptions).Tags = [] ∧
    (probeDomain envC5 "bucket.test" DefaultProbeOptions).Vulnerabilities = [] := by
  decide

/-- C5 (amended): PROVIDED the object-storage stage's trigger holds (a
response whose body contains the listing marker, or a first CNAME hop
referencing `amazonaws.com`), its three outcomes are mutually exclusive
functions of the body: listing marker ⇒ exactly one PublicBucket finding
(with the parsed listing's first ≤ 5 keys as evidence when the body
parses); otherwise access-denied marker ⇒ exactly one PrivateBucket
finding (flag and tag; no vulnerability entry) and no PublicBucket;
otherwise bucket-not-found marker ⇒ exactly one UnclaimedBucket finding. -/
theorem c5_amended_s3_stage (env : ProbeEnv) (respOk : Bool) (body : String)
    (r : ProbeResult) :
    (strContains body "<ListBucketResult" = true → respOk = true →
      (s3Stage env respOk body r).S3Public = true ∧
      (s3Stage env respOk body r).Vulnerabilities
        = r.Vulnerabilities ++ ["Public S3 Bucket"] ∧
      (s3Stage env respOk body r).S3Private = r.S3Private ∧
      (s3Stage env respOk body r).Tags = r.Tags ++ ["PUBLIC-S3"] ∧
      (∀ keys, env.s3Keys = some keys → 0 < keys.length →
        (s3Stage env respOk body r).ExposedFiles = keys.take 5 ∧
        (s3Stage env respOk body r).ExposedFiles.length ≤ 5)) ∧
    (strContains body "<ListBucketResult" = false →
      strContains body "AccessDenied" = true →
      strContains r.CNAME "amazonaws.com" = true → r.CNAME ≠ "" →
      (s3Stage env respOk body r).S3Private = true ∧
      (s3Stage env respOk body r).Tags = r.Tags ++ ["PRIVATE-S3"] ∧
      (s3Stage env respOk body r).S3Public = r.S3Public ∧
      (s3Stage env respOk body r).Vulnerabilities = r.Vulnerabilities) ∧
    (strContains body "<ListBucketResult" = false →
      strContains body "AccessDenied" = false →
      strContains body "NoSuchBucket" = true →
      strContains r.CNAME "amazonaws.com" = true → r.CNAME ≠ "" →
      (s3Stage env respOk body r).Vulnerabilities
        = r.Vulnerabilities ++ ["Unclaimed S3 Bucket"] ∧
      (s3Stage env respOk body r).Tags = r.Tags ++ ["UNCLAIMED-S3"] ∧
      (s3Stage env respOk body r).S3Public = r.S3Public ∧
      (s3Stage env respOk body r).S3Private = r.S3Private) := by
  refine ⟨?_, ?_, ?_⟩
  · intro hL hOk
    cases hk : env.s3Keys with
    | none =>
      refine ⟨?_, ?_, ?_, ?_, ?_⟩ <;>
        first
        | (intro keys hkeys hlen; simp [hk] at hkeys)
        | simp [s3Stage, hL, hOk, hk]
    | some keys =>
      by_cases hlen : 0 < keys.length
      · refine ⟨?_, ?_, ?_, ?_, ?_⟩
        · simp [s3Stage, hL, hOk, hk, hlen]
        · simp [s3Stage, hL, hOk, hk, hlen]
        · simp [s3Stage, hL, hOk, hk, hlen]
        · simp [s3Stage, hL, hOk, hk, hlen]
        · intro keys' hkeys' _
          simp only [hk, Option.some.injEq] at hkeys'
          subst hkeys'
          constructor
          · simp [s3Stage, hL, hOk, hk, hlen]
          · simp [s3Stage, hL, hOk, hk, hlen, List.length_take]
      · refine ⟨?_, ?_, ?_, ?_, ?_⟩ <;>
          first
          | (intro keys' hkeys' hlen'
             simp only [hk, Option.some.injEq] at hkeys'
             subst hkeys'
             exact absurd hlen' hlen)
          | simp [s3Stage, hL, hOk, hk, hlen]
  · intro hL hA hCN hne
    refine ⟨?_, ?_, ?_, ?_⟩ <;> simp [s3Stage, hL, hA, hCN, hne]
  · intro hL hA hN hCN hne
    refine ⟨?_, ?_, ?_, ?_⟩ <;> simp [s3Stage, hL, hA, hN, hCN, hne]

/-- Witness for C5's amended theorem: a public listing body with seven
parsed keys yields one PublicBucket finding and five evidence keys. -/
theorem c5_amended_s3_stage_witness :
    (s3Stage envC5w true "<ListBucketResult" (afterTakeover envC5w "b.test")).S3Public
      = true ∧
    (s3Stage envC5w true "<ListBucketResult"
        (afterTakeover envC5w "b.test")).ExposedFiles
      = ["k1", "k2", "k3", "k4", "k5"] := by
  have h := (c5_amended_s3_stage envC5w true "<ListBucketResult"
    (afterTakeover envC5w "b.test")).1 (by decide) rfl
  refine ⟨h.1, ?_⟩
  have h5 := (h.2.2.2.2 ["k1", "k2", "k3", "k4", "k5", "k6", "k7"] rfl (by decide)).1
  rw [h5]
  decide

/-- C6, counterexample: the chain `[x.safe.test, y.herokuapp.com]`
CONTAINS a hop matching Heroku's alias pattern and the body contains the
"No such app" fingerprint, yet no Takeover finding is emitted: the code
only inspects the FIRST hop (`result.CNAME = cnames[0]`). -/
theorem c6_counterexample :
    envC6.cnameChain = some ["x.safe.test", "y.herokuapp.com"] ∧
    strContains "y.herokuapp.com" "herokuapp.com" = true ∧
    strContains (bodyOf envC6) "No such app" = true ∧
    (probeDomain envC6 "dead2.test" DefaultProbeOptions).IsTakeover = false ∧
    (probeDomain envC6 "dead2.test" DefaultProbeOptions).Tags = [] := by
  decide

/-- C6 (amended): if the FIRST hop of the resolved alias chain matches a
known provider's alias pattern and the probe body contains one of that
provider's fingerprints (with a non-nil response), the pipeline emits a
Takeover finding tagged with the provider; in particular the spec's
scenario — first hop matching `herokuapp.com`, body "No such app" —
carries exactly one Takeover finding tagged Heroku. -/
theorem c6_takeover_first_hop :
    (∀ (env : ProbeEnv) (d : String) (o : ProbeOptions) (sig : TakeoverSig),
      sig ∈ takeoversignatures →
      (∃ p ∈ sig.cname, strContains (cnameOf env) p = true) →
      (∃ m ∈ sig.bodyMatches, strContains (bodyOf env) m = true) →
      respOkOf env = true → cnameOf env ≠ "" →
      (probeDomain env d o).IsTakeover = true ∧
      sig.provider ∈ (probeDomain env d o).Tags) ∧
    ((probeDomain envHeroku "dead.example.com" DefaultProbeOptions).Vulnerabilities
        = ["Subdomain Takeover (Heroku)"] ∧
     (probeDomain envHeroku "dead.example.com" DefaultProbeOptions).Tags
        = ["TAKEOVER-CANDIDATE", "Heroku"] ∧
     (probeDomain envHeroku "dead.example.com" DefaultProbeOptions).IsTakeover
        = true) := by
  constructor
  · intro env d o sig hmem hc hb hok hne
    have hstage : (afterTakeover env d).IsTakeover = true ∧
        sig.provider ∈ (afterTakeover env d).Tags := by
      unfold afterTakeover
      refine takeoverStage_fires (respOkOf env) (bodyOf env) _ sig hmem hc ?_ hne
      obtain ⟨m, hm, hms⟩ := hb
      exact ⟨m, hm, by rw [hok, hms]; rfl⟩
    unfold probeDomain
    obtain ⟨_, _, _, _, s5, s6⟩ :=
      s3Stage_pres env (respOkOf env) (bodyOf env) (afterTakeover env d)
    obtain ⟨_, _, _, _, f5, f6⟩ := sensitiveStage_pres env d sensitiveFilePaths
      (s3Stage env (respOkOf env) (bodyOf env) (afterTakeover env d))
    obtain ⟨_, _, _, _, r5, r6⟩ := redirectStage_pres env d openRedirectPatterns
      (sensitiveStage env d sensitiveFilePaths
        (s3Stage env (respOkOf env) (bodyOf env) (afterTakeover env d)))
    refine ⟨?_, ?_⟩
    · rw [r5, f5, s5]; exact hstage.1
    · exact r6 _ (f6 _ (s6 _ hstage.2))
  · exact ⟨by decide, by decide, by decide⟩

/-- Witness for C6's amended theorem at the Heroku scenario. -/
theorem c6_takeover_first_hop_witness :
    (probeDomain envHeroku "dead.example.com" DefaultProbeOptions).IsTakeover = true ∧
    "Heroku" ∈ (probeDomain envHeroku "dead.example.com" DefaultProbeOptions).Tags :=
  c6_takeover_first_hop.1 envHeroku "dead.example.com" DefaultProbeOptions
    ⟨"Heroku", ["herokuapp.com", "herokuapp"],
      ["No such app", "Heroku | No such app",
       "herokucdn.com/error-pages/no-such-app.html"]⟩
    (by decide) ⟨"herokuapp.com", by decide, by decide⟩
    ⟨"No such app", by decide, by decide⟩ (by decide) (by decide)

/-- C7, counterexample: nothing bounds the takeover and object-storage
stages: at `envC7` the takeover stage alone records 5 findings, and the
object-storage stage still appends a 6th (`Public S3 Bucket`), so the
per-host budget of 5 does NOT stop all later stages. -/
theorem c7_counterexample :
    (afterTakeover envC7 "multi.test").Vulnerabilities.length = 5 ∧
    (probeDomain envC7 "multi.test" DefaultProbeOptions).Vulnerabilities.length = 6 ∧
    "Public S3 Bucket" ∈
      (probeDomain envC7 "multi.test" DefaultProbeOptions).Vulnerabilities := by
  decide

/-- C7 (amended): only the sensitive-file and open-redirect stages are
bounded by the per-host finding budget of 5 — once 5 findings are
recorded, those two stages do nothing at all; the takeover and
object-storage stages are not budget-checked and can push the total past
5. -/
theorem c7_budget_only_late_stages (env : ProbeEnv) (d : String)
    (r : ProbeResult) (h : 5 ≤ r.Vulnerabilities.length) :
    sensitiveStage env d sensitiveFilePaths r = r ∧
    redirectStage env d openRedirectPatterns r = r :=
  ⟨sensitiveStage_budget env d _ r h, redirectStage_budget env d _ r h⟩

/-- A result already holding five findings, for the C7 witness. -/
def fiveFindings : ProbeResult :=
  { Domain := "w.test", CNAME := "", HTTPStatus := 200, ContentLength := 0,
    IsTakeover := false, S3Public := false, S3Private := false,
    ExposedFiles := [], RedirectURL := "", OpenRedirect := false,
    Vulnerabilities := ["v1", "v2", "v3", "v4", "v5"], Tags := [] }

/-- Witness for C7's amended theorem. -/
theorem c7_budget_only_late_stages_witness :
    5 ≤ fiveFindings.Vulnerabilities.length ∧
    (sensitiveStage probeEnvDown "w.test" sensitiveFilePaths fiveFindings
        = fiveFindings ∧
      redirectStage probeEnvDown "w.test" openRedirectPatterns fiveFindings
        = fiveFindings) :=
  ⟨by decide, c7_budget_only_late_stages probeEnvDown "w.test" fiveFindings (by decide)⟩

/-- C8: every run's report has exactly one result per input hostname —
the multiset of result subdomains equals the input list — for every
environment, in particular when every probe fails. -/
theorem c8_report_covers_inputs (envs : String → SubdomainEnv)
    (subs : List String) (o : AnalysisOptions) :
    List.Perm ((AnalyzeSubdomains envs subs o).map (fun r => r.Subdomain)) subs := by
  unfold AnalyzeSubdomains
  have h1 := (sortByScore_perm (subs.map (fun s => analyzeSubdomain (envs s) s o))).map
    (fun r => r.Subdomain)
  have h2 : (subs.map (fun s => analyzeSubdomain (envs s) s o)).map
      (fun r => r.Subdomain) = subs := by
    rw [List.map_map]
    have hc : ∀ s ∈ subs,
        ((fun r => r.Subdomain) ∘ fun s => analyzeSubdomain (envs s) s o) s = id s :=
      fun s _ => analyzeSubdomain_Subdomain (envs s) s o
    rw [List.map_congr_left hc, List.map_id]
  rw [h2] at h1
  exact h1

/-- C9: a subdomain whose HTTPS and HTTP attempts both fail and whose
CNAME chain matches no cloud-provider pattern is reported with HTTP
status 0, score exactly 1.0 (10 tenths — the base, no modifier), and the
single tag `NO-HTTP`. -/
theorem c9_unreachable_base_score (env : SubdomainEnv) (s : String)
    (o : AnalysisOptions)
    (h1 : env.httpsResp = none) (h2 : env.httpResp = none)
    (h3 : ∀ chain, env.cnameChain = some chain →
      ∀ pp ∈ cloudCnamePatterns, ∀ c ∈ chain, env.regexMatch pp.1 c = false) :
    (analyzeSubdomain env s o).HTTPStatus = 0 ∧
    (analyzeSubdomain env s o).Score = 10 ∧
    (analyzeSubdomain env s o).Tags = ["NO-HTTP"] := by
  have hhttp : httpStep env s o =
      { Subdomain := s, HTTPStatus := 0, ContentLength := 0, Headers := [],
        IsTLS := false, TLSIssuer := "", SANs := [], CNAMEs := [],
        CloudProvider := "", Score := 10, Tags := ["NO-HTTP"] } := by
    unfold httpStep
    rw [h1, h2]
    rfl
  have hmp : matchedProviders env = [] := by
    unfold matchedProviders
    cases hch : env.cnameChain with
    | none => rfl
    | some chain =>
      apply List.filter_eq_nil_iff.mpr
      intro pp hpp
      simp only [Bool.not_eq_true]
      rw [Bool.eq_false_iff]
      intro hany
      obtain ⟨c, hcmem, hcm⟩ := List.any_eq_true.mp hany
      rw [h3 chain hch pp hpp c hcmem] at hcm
      cases hcm
  obtain ⟨c1, c2, c3, _, c5⟩ := cnameStep_spec env (httpStep env s o)
  have hX2 : (cnameStep env (httpStep env s o)).HTTPStatus = 0 := by
    rw [c2, hhttp]
  have hX3 : (cnameStep env (httpStep env s o)).ContentLength = 0 := by
    rw [c3, hhttp]
  have hfinal : analyzeSubdomain env s o = cnameStep env (httpStep env s o) := by
    unfold analyzeSubdomain
    rw [statusStep_zero _ hX2, sizeStep_zero _ hX3]
  refine ⟨by rw [hfinal, hX2], ?_, ?_⟩
  · rw [hfinal, c1, hhttp, hmp]
    simp
  · rw [hfinal, c5, hhttp, hmp]
    simp

/-- Witness for C9 at the concrete unreachable host. -/
theorem c9_unreachable_base_score_witness :
    (analyzeSubdomain envC9 "x.test" DefaultOptions).HTTPStatus = 0 ∧
    (analyzeSubdomain envC9 "x.test" DefaultOptions).Score = 10 ∧
    (analyzeSubdomain envC9 "x.test" DefaultOptions).Tags = ["NO-HTTP"] :=
  c9_unreachable_base_score envC9 "x.test" DefaultOptions rfl rfl
    (fun chain hc pp _ c _ => by cases hc; rfl)

end Subscan
